import Mathlib

/-!
Shallow embedding of the Moroccan point-of-sale transaction engine found in
src/src/routes/pos/index.tsx (component MoroccanPOSSystem).  JavaScript
numbers are modelled as exact rationals (ℚ); JS `Math.round x` is
`⌊x + 1/2⌋` (halves round towards +∞).  React state is modelled as an
explicit record `POSState`; each state-updating callback of the component
becomes a function from states to states.  The UI-only fields
(`searchQuery`, modal flags, `theme`, `isProcessing`) and the wall-clock /
random data of the receipt (`en_tete`, `ticket`, `client`, `mentions`
blocks, which contain only constant strings, dates and a random ticket
number) are outside the data the claims speak about and are omitted.
-/

namespace POS

/-- `type TVARate = 0.1 | 0.2 | 0.14` — the closed enumeration of Moroccan
VAT rates in the source. -/
inductive TVARate
  | r10
  | r20
  | r14
  deriving DecidableEq, Repr

/-- The numeric value of a VAT rate (the TS literal itself). -/
def TVARate.val : TVARate → ℚ
  | .r10 => 1/10
  | .r20 => 2/10
  | .r14 => 14/100

/-- `type PaymentMethod = 'cash' | 'credit_card' | 'cheque' | 'mobile_money'
| 'bank_transfer'`.  Note the union has no member `'credit'`. -/
inductive PaymentMethod
  | cash
  | credit_card
  | cheque
  | mobile_money
  | bank_transfer
  deriving DecidableEq, Repr

/-- The TS string literal underlying each `PaymentMethod` member; at runtime
the method IS this string, and `processPayment` compares it with the string
`'credit'`. -/
def methodStr : PaymentMethod → String
  | .cash => "cash"
  | .credit_card => "credit_card"
  | .cheque => "cheque"
  | .mobile_money => "mobile_money"
  | .bank_transfer => "bank_transfer"

/-- `getPaymentMethodLabel` of the source (display labels). -/
def getPaymentMethodLabel : PaymentMethod → String
  | .cash => "Especes"
  | .credit_card => "Carte Bancaire"
  | .cheque => "Cheque"
  | .mobile_money => "Mobile Money"
  | .bank_transfer => "Virement"

/-- `interface Product` of the source. -/
structure Product where
  id : String
  code : String
  name : String
  name_arabic : String
  barcode : String
  category : String
  price : ℚ
  tva_rate : TVARate
  unit : String
  stock : ℤ
  min_stock : ℤ
  supplier : String
  cost_price : ℚ
  margin : ℚ
  image : Option String := none
  deriving DecidableEq, Repr

/-- `interface CartItem` of the source.  `subtotal` and `tva_amount` are set
once at line creation (in `addToCart`) and never maintained afterwards;
`cartTotals` recomputes everything from `product` and `quantity`. -/
structure CartItem where
  product : Product
  quantity : ℤ
  discount : ℚ
  subtotal : ℚ
  tva_amount : ℚ
  deriving DecidableEq, Repr

/-- `interface Customer` of the source. -/
structure Customer where
  id : String
  code : String
  name : String
  phone : String
  email : Option String := none
  address : Option String := none
  city : String
  ice : Option String := none
  rc : Option String := none
  tp : Option String := none
  cnss : Option String := none
  credit_limit : ℚ
  credit_used : ℚ
  is_vip : Bool
  deriving DecidableEq, Repr

/-- `status: 'open' | 'closed'` of `interface Shift` (renamed `opened`
because `open` is a Lean keyword). -/
inductive ShiftStatus
  | opened
  | closed
  deriving DecidableEq, Repr

/-- `interface Shift` of the source; the `Date` fields `start_time` and
`end_time` are omitted (no claim mentions them, and no engine computation
reads them). -/
structure Shift where
  id : String
  cashier : String
  opening_balance : ℚ
  closing_balance : Option ℚ := none
  cash_sales : ℚ
  card_sales : ℚ
  cheque_sales : ℚ
  total_sales : ℚ
  expected_cash : ℚ
  difference : Option ℚ := none
  status : ShiftStatus
  deriving DecidableEq, Repr

/-- JS `Math.round`: nearest integer, halves towards +∞, i.e. `⌊x + 1/2⌋`. -/
def mathRound (x : ℚ) : ℤ :=
  ⌊x + 1/2⌋

/-- The `tvaByRate` accumulator object of `cartTotals`. -/
structure TvaByRate where
  tva_10 : ℚ
  tva_14 : ℚ
  tva_20 : ℚ
  deriving DecidableEq, Repr

/-- The record returned by the `cartTotals` memo of the source. -/
structure CartTotals where
  subtotal : ℚ
  tvaByRate : TvaByRate
  tvaTotal : ℚ
  total : ℚ
  totalRounded : ℚ
  arrondi : ℚ
  itemCount : ℤ
  deriving DecidableEq, Repr

/-- The `cartTotals` computation of the source, line for line:
subtotal by `reduce`, per-band VAT by `forEach` with an if-chain on
`tva_rate`, `tvaTotal = Object.values(tvaByRate).reduce(+)` (insertion
order 10, 14, 20), `total = subtotal + tvaTotal`,
`totalRounded = Math.round(total * 100) / 100`,
`arrondi = totalRounded - total`. -/
def cartTotals (cart : List CartItem) : CartTotals :=
  let subtotal := cart.foldl
    (fun sum item =>
      let itemTotal := item.product.price * (item.quantity : ℚ)
      let discountAmount := itemTotal * (item.discount / 100)
      sum + (itemTotal - discountAmount)) 0
  let tvaByRate := cart.foldl
    (fun acc item =>
      let itemTotal := item.product.price * (item.quantity : ℚ)
      let discountAmount := itemTotal * (item.discount / 100)
      let netAmount := itemTotal - discountAmount
      let tvaAmount := netAmount * item.product.tva_rate.val
      match item.product.tva_rate with
      | .r10 => { acc with tva_10 := acc.tva_10 + tvaAmount }
      | .r14 => { acc with tva_14 := acc.tva_14 + tvaAmount }
      | .r20 => { acc with tva_20 := acc.tva_20 + tvaAmount })
    ⟨0, 0, 0⟩
  let tvaTotal := tvaByRate.tva_10 + tvaByRate.tva_14 + tvaByRate.tva_20
  let total := subtotal + tvaTotal
  let totalRounded := (mathRound (total * 100) : ℚ) / 100
  let arrondi := totalRounded - total
  { subtotal := subtotal
    tvaByRate := tvaByRate
    tvaTotal := tvaTotal
    total := total
    totalRounded := totalRounded
    arrondi := arrondi
    itemCount := cart.foldl (fun sum item => sum + item.quantity) 0 }

/-- `addToCart` of the source: if a line for the product exists, increment
its quantity (no stock check!), otherwise append a fresh line with
quantity 1, discount 0, `subtotal = price`, `tva_amount = price * rate`. -/
def addToCart (cart : List CartItem) (product : Product) : List CartItem :=
  if cart.any (fun item => item.product.id == product.id) then
    cart.map (fun item =>
      if item.product.id == product.id then
        { item with quantity := item.quantity + 1 }
      else item)
  else
    cart ++ [{ product := product
               quantity := 1
               discount := 0
               subtotal := product.price
               tva_amount := product.price * product.tva_rate.val }]

/-- The per-item body of `updateQuantity`: for the matching line the new
quantity is `Math.max(1, quantity + delta)`; if it exceeds the product's
stock the line is returned unchanged and the toast reports the available
stock (the `Option ℤ` component); otherwise the quantity is replaced. -/
def updateQuantityItem (productId : String) (delta : ℤ) (item : CartItem) :
    CartItem × Option ℤ :=
  if item.product.id == productId then
    let newQuantity := max 1 (item.quantity + delta)
    if item.product.stock < newQuantity then
      (item, some item.product.stock)
    else
      ({ item with quantity := newQuantity }, none)
  else (item, none)

/-- `updateQuantity` of the source (the resulting cart). -/
def updateQuantity (cart : List CartItem) (productId : String) (delta : ℤ) :
    List CartItem :=
  cart.map (fun item => (updateQuantityItem productId delta item).1)

/-- `removeFromCart` of the source. -/
def removeFromCart (cart : List CartItem) (productId : String) : List CartItem :=
  cart.filter (fun item => !(item.product.id == productId))

/-- `applyDiscount` of the source: clamp into [0, 100]. -/
def applyDiscount (cart : List CartItem) (productId : String) (discount : ℚ) :
    List CartItem :=
  cart.map (fun item =>
    if item.product.id == productId then
      { item with discount := min 100 (max 0 discount) }
    else item)

/-- One cart-mutating command issued by the UI layer (the operations the
claims quantify over). -/
inductive CartOp
  | add (product : Product)
  | remove (productId : String)
  | update (productId : String) (delta : ℤ)

/-- Apply one cart operation. -/
def applyCartOp (cart : List CartItem) : CartOp → List CartItem
  | .add product => addToCart cart product
  | .remove productId => removeFromCart cart productId
  | .update productId delta => updateQuantity cart productId delta

/-- Apply a sequence of cart operations, oldest first. -/
def applyCartOps (ops : List CartOp) (cart : List CartItem) : List CartItem :=
  ops.foldl applyCartOp cart

/-- One `articles` entry of the receipt built in `processPayment`. -/
structure ReceiptArticle where
  designation : String
  quantite : ℤ
  prix_unitaire : ℚ
  tva : ℚ
  montant_ht : ℚ
  montant_tva : ℚ
  montant_ttc : ℚ
  deriving DecidableEq, Repr

/-- The `total` block of `interface MoroccanReceipt`. -/
structure ReceiptTotal where
  montant_ht : ℚ
  montant_tva_10 : ℚ
  montant_tva_14 : ℚ
  montant_tva_20 : ℚ
  montant_ttc : ℚ
  arrondi : ℚ
  net_a_payer : ℚ
  deriving DecidableEq, Repr

/-- The `paiement` block of `interface MoroccanReceipt`. -/
structure Paiement where
  mode : String
  recu : ℚ
  rendu : ℚ
  deriving DecidableEq, Repr

/-- The computed blocks of `interface MoroccanReceipt` (the constant
`en_tete`/`mentions` strings and the date/random `ticket` block are
omitted, see the file comment). -/
structure MoroccanReceipt where
  articles : List ReceiptArticle
  total : ReceiptTotal
  paiement : Paiement
  deriving DecidableEq, Repr

/-- The two failure modes actually present in `processPayment`: the
empty-cart guard and the cash under-tender guard (whose toast reports the
shortfall `totalRounded - paid`). -/
inductive PayError
  | emptyCart
  | insufficientTender (shortfall : ℚ)
  deriving DecidableEq, Repr

/-- The React state of `MoroccanPOSSystem` that the engine reads and
writes: cart, product list, customer list, selected customer, active
shift. -/
structure POSState where
  cart : List CartItem
  products : List Product
  customers : List Customer
  currentCustomer : Option Customer
  activeShift : Shift
  deriving DecidableEq, Repr

/-- Result of one `processPayment` call: the component state afterwards,
the receipt put into `currentReceipt` (on success), and the error toast
(on failure). -/
structure PaymentOutcome where
  state : POSState
  receipt : Option MoroccanReceipt
  error : Option PayError
  deriving DecidableEq, Repr

/-- The committing tail of `processPayment` (everything after the two
guard returns): builds the receipt, updates the shift ledger, decrements
stock for every product that has a cart line (unconditionally — there is
no stock re-validation), updates customer credit only when the method
string equals the literal `'credit'` (dead: no `PaymentMethod` is that
string), and clears the cart. -/
def commitPayment (s : POSState) (method : PaymentMethod) (paid : ℚ) :
    PaymentOutcome :=
  let t := cartTotals s.cart
  let change := paid - t.totalRounded
  let receipt : MoroccanReceipt :=
    { articles := s.cart.map (fun item =>
        { designation := item.product.name
          quantite := item.quantity
          prix_unitaire := item.product.price
          tva := item.product.tva_rate.val * 100
          montant_ht := item.product.price * (item.quantity : ℚ) *
            (1 - item.discount / 100)
          montant_tva := item.product.price * (item.quantity : ℚ) *
            (1 - item.discount / 100) * item.product.tva_rate.val
          montant_ttc := item.product.price * (item.quantity : ℚ) *
            (1 - item.discount / 100) * (1 + item.product.tva_rate.val) })
      total :=
        { montant_ht := t.subtotal
          montant_tva_10 := t.tvaByRate.tva_10
          montant_tva_14 := t.tvaByRate.tva_14
          montant_tva_20 := t.tvaByRate.tva_20
          montant_ttc := t.total
          arrondi := t.arrondi
          net_a_payer := t.totalRounded }
      paiement :=
        { mode := getPaymentMethodLabel method
          recu := paid
          rendu := max 0 change } }
  let prev := s.activeShift
  let shift : Shift :=
    { prev with
      cash_sales := prev.cash_sales +
        (if method = .cash then t.totalRounded else 0)
      card_sales := prev.card_sales +
        (if method = .credit_card then t.totalRounded else 0)
      cheque_sales := prev.cheque_sales +
        (if method = .cheque then t.totalRounded else 0)
      total_sales := prev.total_sales + t.totalRounded
      expected_cash := prev.opening_balance + prev.cash_sales +
        (if method = .cash then t.totalRounded else 0) }
  let products := s.products.map (fun product =>
    match s.cart.find? (fun item => item.product.id == product.id) with
    | some cartItem => { product with stock := product.stock - cartItem.quantity }
    | none => product)
  let customers :=
    match s.currentCustomer with
    | some currentCustomer =>
        if methodStr method == "credit" then
          s.customers.map (fun c =>
            if c.id == currentCustomer.id then
              { c with credit_used := c.credit_used + t.totalRounded }
            else c)
        else s.customers
    | none => s.customers
  { state :=
      { cart := []
        products := products
        customers := customers
        currentCustomer := s.currentCustomer
        activeShift := shift }
    receipt := some receipt
    error := none }

/-- `processPayment` of the source.  `paid` is the value of
`parseFloat(amountPaid) || 0`.  Guard 1: `cart.length === 0`.  Guard 2:
`paymentMethod === 'cash' && paid < cartTotals.totalRounded`, reporting
the shortfall `totalRounded - paid`.  On failure the component state is
returned untouched; otherwise the commit runs. -/
def processPayment (s : POSState) (method : PaymentMethod) (paid : ℚ) :
    PaymentOutcome :=
  if s.cart = [] then
    { state := s, receipt := none, error := some .emptyCart }
  else if method = .cash ∧ paid < (cartTotals s.cart).totalRounded then
    { state := s, receipt := none
      error := some (.insufficientTender ((cartTotals s.cart).totalRounded - paid)) }
  else
    commitPayment s method paid

/-! Concrete fixtures: the product/customer/shift seed data of the source
component (Arabic display names elided), plus the cart lines used by the
concrete scenarios of the claims. -/

/-- Product `'1'` of the source seed data (price 32.50, VAT 20%). -/
def product1 : Product :=
  { id := "1", code := "P001", name := "Cafe Nescafe Classic 200g"
    name_arabic := "", barcode := "7612100012345", category := "Epicerie"
    price := 32.50, tva_rate := .r20, unit := "Piece", stock := 45
    min_stock := 10, supplier := "Nestle Maroc", cost_price := 25.00
    margin := 30 }

/-- Product `'2'` of the source seed data (price 8.90, VAT 14%). -/
def product2 : Product :=
  { id := "2", code := "P002", name := "Lait Centrale Danone 1L"
    name_arabic := "", barcode := "6111111111111", category := "Laitiers"
    price := 8.90, tva_rate := .r14, unit := "Piece", stock := 120
    min_stock := 20, supplier := "Centrale Danone", cost_price := 6.50
    margin := 37 }

/-- Product `'4'` of the source seed data (price 11.50, VAT 10%). -/
def product4 : Product :=
  { id := "4", code := "P004", name := "Sucre Surac 1kg"
    name_arabic := "", barcode := "6112222222222", category := "Epicerie"
    price := 11.50, tva_rate := .r10, unit := "Paquet", stock := 200
    min_stock := 50, supplier := "Cosumar", cost_price := 8.50
    margin := 35 }

/-- A priced product used by the credit scenario: one unit totals
2500 + 20% VAT = 3000. -/
def productD : Product :=
  { id := "9", code := "P009", name := "Televiseur 55"
    name_arabic := "", barcode := "6119999999999", category := "Electro"
    price := 2500, tva_rate := .r20, unit := "Piece", stock := 5
    min_stock := 1, supplier := "Electro Maroc", cost_price := 2000
    margin := 25 }

/-- A cart line exactly as `addToCart` creates it, with the quantity then
raised (fixture builder for the scenarios). -/
def lineOf (p : Product) (q : ℤ) : CartItem :=
  { product := p, quantity := q, discount := 0, subtotal := p.price
    tva_amount := p.price * p.tva_rate.val }

/-- The initial `activeShift` of the source component. -/
def shift0 : Shift :=
  { id := "SHIFT001", cashier := "Youssef EL BACHIRI"
    opening_balance := 5000, cash_sales := 0, card_sales := 0
    cheque_sales := 0, total_sales := 0, expected_cash := 5000
    status := .opened }

/-- The scenario-D customer: credit_used 48000 of a 50000 limit. -/
def customerD : Customer :=
  { id := "1", code := "C001", name := "Mohamed Amine"
    phone := "0612345678", city := "Casablanca"
    credit_limit := 50000, credit_used := 48000, is_vip := true }

/-- Scenario-B cart: (8.90, 14%, qty 3) and (11.50, 10%, qty 1). -/
def cartB : List CartItem :=
  [lineOf product2 3, lineOf product4 1]

/-- Scenario-A/C/E cart: (32.50, 20%, qty 2), roundedTotal 78.00. -/
def cartA : List CartItem :=
  [lineOf product1 2]

/-- A state holding the scenario-A/C/E cart over the seed data. -/
def stateA : POSState :=
  { cart := cartA, products := [product1, product2, product4]
    customers := [customerD], currentCustomer := none, activeShift := shift0 }

/-- The scenario-D state: selected customer with 48000 of 50000 credit
used, cart totalling 3000. -/
def stateD : POSState :=
  { cart := [lineOf productD 1], products := [productD]
    customers := [customerD], currentCustomer := some customerD
    activeShift := shift0 }

/-- Product `'1'` with its stock exhausted. -/
def product1Sold : Product :=
  { product1 with stock := 0 }

/-- A state whose cart was built by `addToCart` on a product with zero
stock (the add succeeds: `addToCart` performs no stock check). -/
def stateS : POSState :=
  { cart := addToCart [] product1Sold, products := [product1Sold]
    customers := [], currentCustomer := none, activeShift := shift0 }

/-- The scenario-A/C/E state with the active shift already closed. -/
def stateClosed : POSState :=
  { stateA with activeShift := { shift0 with status := .closed } }

/-- A non-empty cart whose total is 0: one line of product `'1'` with a
100% discount, built with the source's own `addToCart`/`applyDiscount`. -/
def cartZero : List CartItem :=
  applyDiscount (addToCart [] product1) "1" 100

/-- A state holding the fully-discounted cart over a fresh shift. -/
def stateZ : POSState :=
  { cart := cartZero, products := [product1], customers := []
    currentCustomer := none, activeShift := shift0 }

/-- A line of product `'1'` already at the full stock of 45. -/
def itemFull : CartItem :=
  lineOf product1 45

/-- Replace the active shift's status, leaving everything else in the
state alone. -/
def withShiftStatus (s : POSState) (st : ShiftStatus) : POSState :=
  { s with activeShift := { s.activeShift with status := st } }

/-- Replace the shift status inside a payment outcome's state. -/
def withOutcomeShiftStatus (o : PaymentOutcome) (st : ShiftStatus) :
    PaymentOutcome :=
  { o with state := withShiftStatus o.state st }

/-- Every cart line carries a quantity of at least 1. -/
def cartQuantInv (cart : List CartItem) : Prop :=
  ∀ item ∈ cart, 1 ≤ item.quantity

/-- The change figure the receipt records, when a receipt was produced. -/
def receiptRendu (o : PaymentOutcome) : Option ℚ :=
  o.receipt.map (fun r => r.paiement.rendu)

/-- The tendered figure the receipt records, when a receipt was
produced. -/
def receiptRecu (o : PaymentOutcome) : Option ℚ :=
  o.receipt.map (fun r => r.paiement.recu)

/-! Helper lemmas shared by the claim theorems. -/

/-- On a failed `processPayment` the two guard branches return the state
untouched. -/
theorem processPayment_fail_state (s : POSState) (method : PaymentMethod)
    (paid : ℚ) (e : PayError)
    (h : (processPayment s method paid).error = some e) :
    (processPayment s method paid).state = s := by
  by_cases hc : s.cart = []
  · simp [processPayment, hc]
  · by_cases hg : method = .cash ∧ paid < (cartTotals s.cart).totalRounded
    · simp [processPayment, hc, hg]
    · simp [processPayment, hc, hg, commitPayment] at h

/-- A `processPayment` call that produced no error took the commit
branch. -/
theorem processPayment_ok (s : POSState) (method : PaymentMethod) (paid : ℚ)
    (h : (processPayment s method paid).error = none) :
    processPayment s method paid = commitPayment s method paid := by
  by_cases hc : s.cart = []
  · simp [processPayment, hc] at h
  · by_cases hg : method = .cash ∧ paid < (cartTotals s.cart).totalRounded
    · simp [processPayment, hc, hg] at h
    · simp [processPayment, hc, hg]

/-- `addToCart` preserves the quantity invariant. -/
theorem addToCart_inv (cart : List CartItem) (p : Product)
    (h : cartQuantInv cart) : cartQuantInv (addToCart cart p) := by
  intro item hmem
  by_cases hany : cart.any (fun item => item.product.id == p.id)
  · rw [addToCart, if_pos hany] at hmem
    rcases List.mem_map.mp hmem with ⟨orig, horig, heq⟩
    by_cases hid : orig.product.id == p.id
    · rw [if_pos hid] at heq
      have h1 := h orig horig
      rw [← heq]
      dsimp only
      omega
    · rw [if_neg hid] at heq
      exact heq ▸ h orig horig
  · rw [addToCart, if_neg hany] at hmem
    rcases List.mem_append.mp hmem with hmem | hmem
    · exact h item hmem
    · rcases List.mem_singleton.mp hmem with rfl
      exact le_refl 1

/-- `updateQuantity` preserves the quantity invariant. -/
theorem updateQuantity_inv (cart : List CartItem) (productId : String)
    (delta : ℤ) (h : cartQuantInv cart) :
    cartQuantInv (updateQuantity cart productId delta) := by
  intro item hmem
  rcases List.mem_map.mp hmem with ⟨orig, horig, heq⟩
  rw [updateQuantityItem] at heq
  by_cases hid : orig.product.id == productId
  · rw [if_pos hid] at heq
    by_cases hstock : orig.product.stock < max 1 (orig.quantity + delta)
    · rw [if_pos hstock] at heq
      exact heq ▸ h orig horig
    · rw [if_neg hstock] at heq
      rw [← heq]
      exact le_max_left 1 _
  · rw [if_neg hid] at heq
    exact heq ▸ h orig horig

/-- `removeFromCart` preserves the quantity invariant. -/
theorem removeFromCart_inv (cart : List CartItem) (productId : String)
    (h : cartQuantInv cart) : cartQuantInv (removeFromCart cart productId) := by
  intro item hmem
  exact h item (List.mem_of_mem_filter hmem)

/-- Every single cart operation preserves the quantity invariant. -/
theorem applyCartOp_inv (cart : List CartItem) (op : CartOp)
    (h : cartQuantInv cart) : cartQuantInv (applyCartOp cart op) := by
  cases op with
  | add p => exact addToCart_inv cart p h
  | remove productId => exact removeFromCart_inv cart productId h
  | update productId delta => exact updateQuantity_inv cart productId delta h

/-- Any sequence of cart operations preserves the quantity invariant. -/
theorem applyCartOps_inv (ops : List CartOp) (cart : List CartItem)
    (h : cartQuantInv cart) : cartQuantInv (applyCartOps ops cart) := by
  induction ops generalizing cart with
  | nil => exact h
  | cons op rest ih => exact ih (applyCartOp cart op) (applyCartOp_inv cart op h)

/-- The shift produced by the commit branch, spelled out (definitional). -/
theorem commitPayment_shift (s : POSState) (method : PaymentMethod) (paid : ℚ) :
    (commitPayment s method paid).state.activeShift =
      { s.activeShift with
        cash_sales := s.activeShift.cash_sales +
          (if method = PaymentMethod.cash
            then (cartTotals s.cart).totalRounded else 0)
        card_sales := s.activeShift.card_sales +
          (if method = PaymentMethod.credit_card
            then (cartTotals s.cart).totalRounded else 0)
        cheque_sales := s.activeShift.cheque_sales +
          (if method = PaymentMethod.cheque
            then (cartTotals s.cart).totalRounded else 0)
        total_sales := s.activeShift.total_sales + (cartTotals s.cart).totalRounded
        expected_cash := s.activeShift.opening_balance + s.activeShift.cash_sales +
          (if method = PaymentMethod.cash
            then (cartTotals s.cart).totalRounded else 0) } :=
  rfl

/-! The claim theorems. -/

/-- C1: settlement is all-or-nothing — whenever `processPayment` fails one
of its preconditions (empty cart, or cash with the tendered amount below
`totalRounded`), the call reports a failure and the entire component state
(cart lines, product stocks, shift ledger, customer credits) is exactly
the state before the call. -/
theorem c1_settlement_all_or_nothing (s : POSState) (method : PaymentMethod)
    (paid : ℚ)
    (h : s.cart = [] ∨
      (method = PaymentMethod.cash ∧ paid < (cartTotals s.cart).totalRounded)) :
    (processPayment s method paid).state = s ∧
      (processPayment s method paid).error.isSome = true := by
  rcases h with h | h
  · simp [processPayment, h]
  · by_cases hc : s.cart = []
    · simp [processPayment, hc]
    · simp [processPayment, hc, h.1, h.2]

/-- C1 witness: the empty-cart precondition failure at a concrete state
leaves the state untouched. -/
theorem c1_witness :
    (processPayment { stateA with cart := [] } PaymentMethod.cash 0).state =
      { stateA with cart := [] } ∧
    (processPayment { stateA with cart := [] }
        PaymentMethod.cash 0).error.isSome = true :=
  c1_settlement_all_or_nothing { stateA with cart := [] }
    PaymentMethod.cash 0 (Or.inl rfl)

/-- C4: on the scenario-B cart — (8.90, 14%, qty 3) and (11.50, 10%,
qty 1) — `cartTotals` returns subtotal 38.20, VAT-14 band 3.738, VAT-10
band 1.15, raw total 43.088, rounded total 43.09, and delta
`arrondi = totalRounded - total = 0.002`, exactly, in the idealised exact
arithmetic of the embedding. -/
theorem c4_scenario_b_totals :
    (cartTotals cartB).subtotal = 38.20 ∧
    (cartTotals cartB).tvaByRate.tva_14 = 3.738 ∧
    (cartTotals cartB).tvaByRate.tva_10 = 1.15 ∧
    (cartTotals cartB).total = 43.088 ∧
    (cartTotals cartB).totalRounded = 43.09 ∧
    (cartTotals cartB).arrondi = (cartTotals cartB).totalRounded -
      (cartTotals cartB).total ∧
    (cartTotals cartB).arrondi = 0.002 := by
  refine ⟨?_, ?_, ?_, ?_, ?_, rfl, ?_⟩ <;>
    norm_num [cartTotals, cartB, product2, product4, lineOf, TVARate.val,
      mathRound]

/-- C6: a cash settlement on a non-empty cart with the tendered amount
strictly below `totalRounded` fails with the insufficient-tender error
carrying the shortfall `totalRounded - paid`, and the cart still holds
all of its lines. -/
theorem c6_insufficient_tender (s : POSState) (paid : ℚ)
    (hne : s.cart ≠ [])
    (hlt : paid < (cartTotals s.cart).totalRounded) :
    (processPayment s PaymentMethod.cash paid).error =
      some (PayError.insufficientTender
        ((cartTotals s.cart).totalRounded - paid)) ∧
    (processPayment s PaymentMethod.cash paid).state.cart = s.cart := by
  simp [processPayment, hne, hlt]

/-- C6 witness: scenario C — roundedTotal 78.00, tendered 50.00 — fails
with shortfall 28.00 and the cart line survives. -/
theorem c6_witness :
    (processPayment stateA PaymentMethod.cash 50).error =
      some (PayError.insufficientTender 28) ∧
    (processPayment stateA PaymentMethod.cash 50).state.cart = stateA.cart := by
  have htr : (cartTotals stateA.cart).totalRounded = 78 := by
    norm_num [cartTotals, stateA, cartA, product1, lineOf, TVARate.val,
      mathRound]
  have h := c6_insufficient_tender stateA 50
    (by simp [stateA, cartA]) (by rw [htr]; norm_num)
  refine ⟨?_, h.2⟩
  rw [h.1, htr]
  norm_num

/-- C8: a quantity update whose target quantity `max 1 (q + delta)`
exceeds the product's stock returns the line untouched and reports the
available stock (no silent clamping); and no sequence of add / remove /
quantity-update operations starting from the empty cart ever produces a
line with quantity below 1. -/
theorem c8_quantity_rules :
    (∀ (productId : String) (delta : ℤ) (item : CartItem),
      item.product.id = productId →
      item.product.stock < max 1 (item.quantity + delta) →
      updateQuantityItem productId delta item = (item, some item.product.stock)) ∧
    (∀ (ops : List CartOp), ∀ item ∈ applyCartOps ops [],
      1 ≤ item.quantity) := by
  constructor
  · intro productId delta item hid hstock
    rw [updateQuantityItem, if_pos (beq_iff_eq.mpr hid), if_pos hstock]
  · intro ops item hmem
    exact applyCartOps_inv ops [] (by intro i hi; cases hi) item hmem

/-- C8 witness: with product `'1'` (stock 45) already at quantity 45, a
`+1` update is rejected reporting stock 45; and the line produced by one
`addToCart` on the empty cart has quantity 1. -/
theorem c8_witness :
    updateQuantityItem "1" 1 itemFull = (itemFull, some 45) ∧
    1 ≤ (lineOf product1 1).quantity := by
  constructor
  · have h := c8_quantity_rules.1 "1" 1 itemFull rfl
      (by norm_num [itemFull, lineOf, product1])
    simpa [itemFull, lineOf, product1] using h
  · exact c8_quantity_rules.2 [CartOp.add product1] (lineOf product1 1)
      (by simp [applyCartOps, applyCartOp, addToCart, lineOf])

/-- C9: after every successful settlement the active shift satisfies
`expected_cash = opening_balance + cash_sales`, with `cash_sales` grown by
`totalRounded` exactly when the method is cash (and only then) and the
opening balance untouched. -/
theorem c9_expected_cash_invariant (s : POSState) (method : PaymentMethod)
    (paid : ℚ)
    (h : (processPayment s method paid).error = none) :
    (processPayment s method paid).state.activeShift.expected_cash =
      (processPayment s method paid).state.activeShift.opening_balance +
        (processPayment s method paid).state.activeShift.cash_sales ∧
    (processPayment s method paid).state.activeShift.cash_sales =
      s.activeShift.cash_sales +
        (if method = PaymentMethod.cash
          then (cartTotals s.cart).totalRounded else 0) ∧
    (processPayment s method paid).state.activeShift.opening_balance =
      s.activeShift.opening_balance := by
  rw [processPayment_ok s method paid h]
  refine ⟨?_, rfl, rfl⟩
  show s.activeShift.opening_balance + s.activeShift.cash_sales + _ =
    s.activeShift.opening_balance + (s.activeShift.cash_sales + _)
  rw [add_assoc]

/-- C9 witness: scenario E — cash 100.00 against roundedTotal 78.00 — the
resulting shift satisfies the expected-cash equation. -/
theorem c9_witness :
    (processPayment stateA PaymentMethod.cash 100).state.activeShift.expected_cash =
      (processPayment stateA PaymentMethod.cash 100).state.activeShift.opening_balance +
        (processPayment stateA PaymentMethod.cash 100).state.activeShift.cash_sales := by
  refine (c9_expected_cash_invariant stateA PaymentMethod.cash 100 ?_).1
  have htr : (cartTotals stateA.cart).totalRounded = 78 := by
    norm_num [cartTotals, stateA, cartA, product1, lineOf, TVARate.val,
      mathRound]
  have hne : ¬ stateA.cart = [] := by simp [stateA, cartA]
  have hnl : ¬ ((100 : ℚ) < (cartTotals stateA.cart).totalRounded) := by
    rw [htr]; norm_num
  simp [processPayment, commitPayment, hne, hnl]

/-- C2 counterexample: scenario D — selected customer with credit_used
48000 of a 50000 limit and roundedTotal 3000 — settles successfully under
every payment method the engine has (the method type has no credit
member), with no credit-limit failure and the customer record, including
credit_used, unchanged. -/
theorem c2_counterexample :
    customerD.credit_used = 48000 ∧
    customerD.credit_limit = 50000 ∧
    (cartTotals stateD.cart).totalRounded = 3000 ∧
    ((processPayment stateD PaymentMethod.cash 3000).error = none ∧
      (processPayment stateD PaymentMethod.cash 3000).state.customers =
        [customerD]) ∧
    ((processPayment stateD PaymentMethod.credit_card 3000).error = none ∧
      (processPayment stateD PaymentMethod.credit_card 3000).state.customers =
        [customerD]) ∧
    ((processPayment stateD PaymentMethod.cheque 3000).error = none ∧
      (processPayment stateD PaymentMethod.cheque 3000).state.customers =
        [customerD]) ∧
    ((processPayment stateD PaymentMethod.mobile_money 3000).error = none ∧
      (processPayment stateD PaymentMethod.mobile_money 3000).state.customers =
        [customerD]) ∧
    ((processPayment stateD PaymentMethod.bank_transfer 3000).error = none ∧
      (processPayment stateD PaymentMethod.bank_transfer 3000).state.customers =
        [customerD]) := by
  have htr : (cartTotals stateD.cart).totalRounded = 3000 := by
    norm_num [cartTotals, stateD, productD, lineOf, TVARate.val, mathRound]
  have hne : ¬ stateD.cart = [] := by simp [stateD]
  have hnl : ¬ ((3000 : ℚ) < (cartTotals stateD.cart).totalRounded) := by
    rw [htr]; norm_num
  have hcc : stateD.currentCustomer = some customerD := rfl
  have hcust : stateD.customers = [customerD] := rfl
  refine ⟨rfl, rfl, htr, ?_, ?_, ?_, ?_, ?_⟩ <;>
    constructor <;>
      simp [processPayment, commitPayment, hne, hnl, hcc, hcust, methodStr]

/-- C2 amended: the engine has no credit payment method (no member's
string is `'credit'`, so the customer-credit branch of the commit never
fires) and no credit-limit check; every `processPayment` call, successful
or failed, leaves the customer list — hence every `credit_used` — exactly
unchanged. -/
theorem c2_amended_credit_never_changes (s : POSState)
    (method : PaymentMethod) (paid : ℚ) :
    (processPayment s method paid).state.customers = s.customers ∧
      methodStr method ≠ "credit" := by
  constructor
  · by_cases hc : s.cart = []
    · simp [processPayment, hc]
    · by_cases hg : method = PaymentMethod.cash ∧
        paid < (cartTotals s.cart).totalRounded
      · simp [processPayment, hc, hg]
      · have heq : processPayment s method paid = commitPayment s method paid := by
          simp [processPayment, hc, hg]
        rw [heq]
        cases hm : s.currentCustomer <;>
          cases method <;>
            simp [commitPayment, hm, methodStr]
  · cases method <;> simp [methodStr]

/-- C3 (code-bug exhibit): settlement performs no stock re-validation —
a line created by `addToCart` on a product whose stock is 0 settles
successfully for cash and drives the product's stock to −1, violating the
never-negative-stock invariant the claim states. -/
theorem c3_no_stock_revalidation :
    (processPayment stateS PaymentMethod.cash 50).error = none ∧
    (processPayment stateS PaymentMethod.cash 50).state.products.map
      Product.stock = [-1] := by
  have htr : (cartTotals stateS.cart).totalRounded = 39 := by
    norm_num [cartTotals, stateS, addToCart, product1Sold, product1, lineOf,
      TVARate.val, mathRound]
  have hne : ¬ stateS.cart = [] := by simp [stateS, addToCart]
  have hnl : ¬ ((50 : ℚ) < (cartTotals stateS.cart).totalRounded) := by
    rw [htr]; norm_num
  have heq : processPayment stateS PaymentMethod.cash 50 =
      commitPayment stateS PaymentMethod.cash 50 := by
    simp [processPayment, hne, hnl]
  rw [heq]
  refine ⟨rfl, ?_⟩
  simp [commitPayment, stateS, addToCart, product1Sold, product1, lineOf,
    List.find?]

/-- C5 counterexample: a non-cash settlement (credit_card) with tendered
100.00 against roundedTotal 78.00 records change 22.00 on the receipt,
not the 0 the claim requires for non-cash methods. -/
theorem c5_counterexample :
    (processPayment stateA PaymentMethod.credit_card 100).error = none ∧
    receiptRendu (processPayment stateA PaymentMethod.credit_card 100) =
      some 22 := by
  have hne : ¬ stateA.cart = [] := by simp [stateA, cartA]
  have heq : processPayment stateA PaymentMethod.credit_card 100 =
      commitPayment stateA PaymentMethod.credit_card 100 := by
    simp [processPayment, hne]
  rw [heq]
  refine ⟨rfl, ?_⟩
  have htr : (cartTotals stateA.cart).totalRounded = 78 := by
    norm_num [cartTotals, stateA, cartA, product1, lineOf, TVARate.val,
      mathRound]
  simp [receiptRendu, commitPayment, htr]
  norm_num

/-- C5 amended: on every successful settlement, whatever the payment
method, the receipt records `recu = paid` and
`rendu = max 0 (paid - totalRounded)` — the `max(0, change)` is applied
unconditionally, not only for cash. -/
theorem c5_amended_change_every_method (s : POSState)
    (method : PaymentMethod) (paid : ℚ)
    (h : (processPayment s method paid).error = none) :
    receiptRendu (processPayment s method paid) =
      some (max 0 (paid - (cartTotals s.cart).totalRounded)) ∧
    receiptRecu (processPayment s method paid) = some paid := by
  rw [processPayment_ok s method paid h]
  exact ⟨rfl, rfl⟩

/-- C5 witness: the cash settlement of scenario E, through the amended
theorem, records recu 100 and rendu `max 0 (100 - 78) = 22`. -/
theorem c5_witness :
    receiptRendu (processPayment stateA PaymentMethod.cash 100) =
      some (max 0 (100 - (cartTotals stateA.cart).totalRounded)) ∧
    receiptRecu (processPayment stateA PaymentMethod.cash 100) = some 100 := by
  refine c5_amended_change_every_method stateA PaymentMethod.cash 100 ?_
  have htr : (cartTotals stateA.cart).totalRounded = 78 := by
    norm_num [cartTotals, stateA, cartA, product1, lineOf, TVARate.val,
      mathRound]
  have hne : ¬ stateA.cart = [] := by simp [stateA, cartA]
  have hnl : ¬ ((100 : ℚ) < (cartTotals stateA.cart).totalRounded) := by
    rw [htr]; norm_num
  simp [processPayment, commitPayment, hne, hnl]

/-- C7 counterexample: a cash settlement against the closed active shift
does not fail — it succeeds and routes 78.00 into the closed shift's
`cash_sales` ledger field. -/
theorem c7_counterexample :
    stateClosed.activeShift.status = ShiftStatus.closed ∧
    stateClosed.activeShift.cash_sales = 0 ∧
    (processPayment stateClosed PaymentMethod.cash 100).error = none ∧
    (processPayment stateClosed
        PaymentMethod.cash 100).state.activeShift.cash_sales = 78 := by
  have htr : (cartTotals stateClosed.cart).totalRounded = 78 := by
    norm_num [cartTotals, stateClosed, stateA, cartA, product1, lineOf,
      TVARate.val, mathRound]
  have hne : ¬ stateClosed.cart = [] := by simp [stateClosed, stateA, cartA]
  have hnl : ¬ ((100 : ℚ) < (cartTotals stateClosed.cart).totalRounded) := by
    rw [htr]; norm_num
  have heq : processPayment stateClosed PaymentMethod.cash 100 =
      commitPayment stateClosed PaymentMethod.cash 100 := by
    simp [processPayment, hne, hnl]
  refine ⟨rfl, rfl, ?_, ?_⟩
  · rw [heq]; rfl
  · rw [heq, commitPayment_shift]
    simp [htr]
    norm_num [stateClosed, stateA, shift0]

/-- C7 amended: `processPayment` never reads and never writes the shift
status — substituting any status (closed included) before the call yields
exactly the original outcome with that status substituted, so a
settlement against a closed shift commits and mutates the ledger exactly
as against an open one, and no ShiftClosed failure exists. -/
theorem c7_amended_status_inert (s : POSState) (method : PaymentMethod)
    (paid : ℚ) (st : ShiftStatus) :
    processPayment (withShiftStatus s st) method paid =
      withOutcomeShiftStatus (processPayment s method paid) st := by
  by_cases hc : s.cart = []
  · simp [processPayment, withShiftStatus, withOutcomeShiftStatus, hc]
  · by_cases hg : method = PaymentMethod.cash ∧
      paid < (cartTotals s.cart).totalRounded
    · simp [processPayment, withShiftStatus, withOutcomeShiftStatus, hc, hg]
    · simp [processPayment, withShiftStatus, withOutcomeShiftStatus,
        commitPayment, hc, hg]

/-- C10 counterexample: a mobile-money settlement of a fully-discounted
(total 0) cart succeeds, and the three method buckets still sum to
`total_sales` afterwards — they do not become strictly smaller. -/
theorem c10_counterexample :
    (processPayment stateZ PaymentMethod.mobile_money 0).error = none ∧
    (processPayment stateZ
          PaymentMethod.mobile_money 0).state.activeShift.cash_sales +
      (processPayment stateZ
          PaymentMethod.mobile_money 0).state.activeShift.card_sales +
      (processPayment stateZ
          PaymentMethod.mobile_money 0).state.activeShift.cheque_sales =
      (processPayment stateZ
          PaymentMethod.mobile_money 0).state.activeShift.total_sales ∧
    stateZ.activeShift.cash_sales + stateZ.activeShift.card_sales +
      stateZ.activeShift.cheque_sales = stateZ.activeShift.total_sales := by
  have hne : ¬ stateZ.cart = [] := by
    simp [stateZ, cartZero, applyDiscount, addToCart]
  have heq : processPayment stateZ PaymentMethod.mobile_money 0 =
      commitPayment stateZ PaymentMethod.mobile_money 0 := by
    simp [processPayment, hne]
  have htr : (cartTotals stateZ.cart).totalRounded = 0 := by
    simp [stateZ, cartZero, applyDiscount, addToCart, product1, lineOf,
      cartTotals, TVARate.val, mathRound]
    norm_num
  refine ⟨by rw [heq]; rfl, ?_, by norm_num [stateZ, shift0]⟩
  rw [heq, commitPayment_shift]
  simp [htr]
  norm_num [stateZ, shift0]

/-- C10 amended: a successful mobile_money or bank_transfer settlement
adds roundedTotal to `total_sales` and leaves `cash_sales`, `card_sales`
and `cheque_sales` unchanged; when the three buckets summed to
`total_sales` beforehand and roundedTotal is strictly positive, they sum
to strictly less than `total_sales` afterwards (for a zero roundedTotal
the sums stay equal, as the counterexample shows). -/
theorem c10_amended_method_bucket_frame (s : POSState)
    (method : PaymentMethod) (paid : ℚ)
    (hm : method = PaymentMethod.mobile_money ∨
      method = PaymentMethod.bank_transfer)
    (h : (processPayment s method paid).error = none) :
    (processPayment s method paid).state.activeShift.total_sales =
      s.activeShift.total_sales + (cartTotals s.cart).totalRounded ∧
    (processPayment s method paid).state.activeShift.cash_sales =
      s.activeShift.cash_sales ∧
    (processPayment s method paid).state.activeShift.card_sales =
      s.activeShift.card_sales ∧
    (processPayment s method paid).state.activeShift.cheque_sales =
      s.activeShift.cheque_sales ∧
    (s.activeShift.cash_sales + s.activeShift.card_sales +
        s.activeShift.cheque_sales = s.activeShift.total_sales →
      0 < (cartTotals s.cart).totalRounded →
      (processPayment s method paid).state.activeShift.cash_sales +
        (processPayment s method paid).state.activeShift.card_sales +
        (processPayment s method paid).state.activeShift.cheque_sales <
        (processPayment s method paid).state.activeShift.total_sales) := by
  rw [processPayment_ok s method paid h, commitPayment_shift]
  rcases hm with hm | hm <;> subst hm <;>
    refine ⟨rfl, by simp, by simp, by simp, ?_⟩ <;>
      · intro h1 h2
        simp only [Shift.mk.injEq]
        simp
        linarith

/-- C10 witness: a mobile-money settlement of scenario A over the fresh
shift (all buckets 0, total 0) leaves the buckets summing strictly below
the new `total_sales`. -/
theorem c10_witness :
    (processPayment stateA
          PaymentMethod.mobile_money 100).state.activeShift.cash_sales +
      (processPayment stateA
          PaymentMethod.mobile_money 100).state.activeShift.card_sales +
      (processPayment stateA
          PaymentMethod.mobile_money 100).state.activeShift.cheque_sales <
      (processPayment stateA
          PaymentMethod.mobile_money 100).state.activeShift.total_sales := by
  have hne : ¬ stateA.cart = [] := by simp [stateA, cartA]
  have h : (processPayment stateA PaymentMethod.mobile_money 100).error =
      none := by
    simp [processPayment, commitPayment, hne]
  have htr : (cartTotals stateA.cart).totalRounded = 78 := by
    norm_num [cartTotals, stateA, cartA, product1, lineOf, TVARate.val,
      mathRound]
  refine (c10_amended_method_bucket_frame stateA PaymentMethod.mobile_money
    100 (Or.inl rfl) h).2.2.2.2 ?_ ?_
  · norm_num [stateA, shift0]
  · rw [htr]; norm_num

end POS
